import Mathlib

/- Shallow embedding of two memory-mapping diagnostic programs:
`shm_rw.c` (the Region Mapper) and `shm_rw_fixed_addr.c` (the Fixed-Address
Mapper).  A mapped region is modelled as a total function `Nat → Nat` from
word index to 64-bit value; syscall outcomes are booleans in an environment
record; possible external interference on the backing store between a write
and the corresponding read-back is an explicit function parameter (identity
means undisturbed memory). -/

namespace ShmRw

/-- Point update of a word-indexed memory: a store to word `a`. -/
def updateMem (m : Nat → Nat) (a v : Nat) : Nat → Nat :=
  fun x => if x = a then v else m x

/-- `SHARE_SIZE` from `shm_rw.c`: the mapped region is 1024 bytes. -/
def SHARE_SIZE : Nat := 1024

/-- Number of 64-bit words in the Region Mapper's region (`SHARE_SIZE / sizeof(uint64_t)`). -/
def NUM_WORDS : Nat := SHARE_SIZE / 8

/-- High tag of the per-index test value (`0xDEADBEEF00000000ULL`). -/
def TAG : Nat := 0xDEADBEEF00000000

/-- Per-index test value `0xDEADBEEF00000000ULL | i` used by both programs. -/
def pattern (i : Nat) : Nat := TAG ||| i

/-- Region contents after `memset(0)` and the write sweep of `shm_rw.c`
lines 70-72: word `i` holds `pattern i` for every `i < NUM_WORDS`. -/
def writtenMem : Nat → Nat := fun i => if i < NUM_WORDS then pattern i else 0

/-- First mismatch record printed by `shm_rw.c` lines 82-83: the index,
the expected value and the value actually read. -/
structure Mismatch where
  index : Nat
  expected : Nat
  actual : Nat
deriving DecidableEq

/-- Verification loop of `shm_rw.c` lines 79-87: starting at word `i` with
`fuel` words left, read each word, compare with `pattern`, and stop at the
first mismatch (the C loop sets `ok = 0` and breaks). -/
def verifyLoop (mem : Nat → Nat) : Nat → Nat → Option Mismatch
  | _, 0 => none
  | i, fuel + 1 =>
    if mem i = pattern i then verifyLoop mem (i + 1) fuel
    else some { index := i, expected := pattern i, actual := mem i }

/-- PASS line of `shm_rw.c` line 91 with `SHARE_SIZE = 1024` substituted. -/
def passMsg : String := "[shm_rw_syscall] PASS: all 1024 bytes match"

/-- FAIL line of `shm_rw.c` line 93. -/
def failMsg : String := "[shm_rw_syscall] FAIL: data mismatch"

/-- Environment of one Region Mapper run: success of each setup syscall,
the interference applied to the backing store between the write sweep and
the verification sweep (identity when nothing disturbs the region), and the
(ignored) results of the three cleanup calls. -/
structure RegionEnv where
  openOk : Bool
  ftruncOk : Bool
  mmapOk : Bool
  corrupt : (Nat → Nat) → (Nat → Nat)
  munmapOk : Bool
  closeOk : Bool
  unlinkOk : Bool

/-- Observable outcome of one Region Mapper run. -/
structure RegionRun where
  exitCode : Nat
  mismatch : Option Mismatch
  resultLine : Option String
  fileCreated : Bool
  fileDeleted : Bool
  fdClosed : Bool
  mapped : Bool
  unmapped : Bool

/-- The Region Mapper `main` of `shm_rw.c`: open (creating) the backing
file, `ftruncate` it, `mmap` it, zero it, write the pattern, verify, report,
then unconditionally `munmap`, `close`, `unlink`.  Failure of `open` exits 1
with no file; failure of `ftruncate` or `mmap` closes, unlinks and exits 1. -/
def runRegionMapper (e : RegionEnv) : RegionRun :=
  if e.openOk then
    if e.ftruncOk then
      if e.mmapOk then
        let memV := e.corrupt writtenMem
        let mm := verifyLoop memV 0 NUM_WORDS
        let ok := mm.isNone
        { exitCode := if ok then 0 else 1
          mismatch := mm
          resultLine := some (if ok then passMsg else failMsg)
          fileCreated := true, fileDeleted := true, fdClosed := true
          mapped := true, unmapped := true }
      else
        { exitCode := 1, mismatch := none, resultLine := none
          fileCreated := true, fileDeleted := true, fdClosed := true
          mapped := false, unmapped := false }
    else
      { exitCode := 1, mismatch := none, resultLine := none
        fileCreated := true, fileDeleted := true, fdClosed := true
        mapped := false, unmapped := false }
  else
    { exitCode := 1, mismatch := none, resultLine := none
      fileCreated := false, fileDeleted := false, fdClosed := false
      mapped := false, unmapped := false }

/-- `TEST_VALUE` from `shm_rw_fixed_addr.c`: `0xDEADBEEFCAFEBABEULL`. -/
def TEST_VALUE : Nat := 0xDEADBEEFCAFEBABE

/-- One line of the multi-location sweep report of `shm_rw_fixed_addr.c`
lines 141-142: the offset, the value written, and the value read back. -/
structure SweepStep where
  idx : Nat
  wrote : Nat
  readBack : Nat
deriving DecidableEq

/-- Multi-location sweep of `shm_rw_fixed_addr.c` lines 133-148: for each of
`fuel` consecutive word offsets starting at `i`, write `pattern i`, let the
interference `intf i` act on the store, read the word back, and clear the
running pass flag on mismatch (the C loop does not break).  Returns the final
store, the aggregate flag `test_passed`, and the per-offset log. -/
def sweepLoop (intf : Nat → (Nat → Nat) → (Nat → Nat)) :
    Nat → Nat → (Nat → Nat) → Bool → ((Nat → Nat) × Bool × List SweepStep)
  | _, 0, m, passed => (m, passed, [])
  | i, fuel + 1, m, passed =>
    let v := pattern i
    let m1 := intf i (updateMem m i v)
    let r := m1 i
    let rest := sweepLoop intf (i + 1) fuel m1 (if r = v then passed else false)
    (rest.1, rest.2.1, { idx := i, wrote := v, readBack := r } :: rest.2.2)

/-- Observable outcome of the verification sequence run in the Mapped state. -/
structure MappedResult where
  originalValue : Nat
  singleReadBack : Nat
  singlePass : Bool
  steps : List SweepStep
  sweepPass : Bool
  finalMem : Nat → Nat
  exitCode : Nat

/-- Verification sequence of `shm_rw_fixed_addr.c` lines 107-170, run once a
mapping is established over the store `mem0`: record the original value of
word 0, write `TEST_VALUE` to word 0 (interference `intfSingle` may act
before the read-back), read it back for the single-value check, run the
4-offset sweep, restore the original value to word 0, and return
`test_passed ? 0 : 1`. -/
def runMapped (mem0 : Nat → Nat) (intfSingle : (Nat → Nat) → (Nat → Nat))
    (intfSweep : Nat → (Nat → Nat) → (Nat → Nat)) : MappedResult :=
  let original := mem0 0
  let m1 := intfSingle (updateMem mem0 0 TEST_VALUE)
  let rv := m1 0
  let s := sweepLoop intfSweep 0 4 m1 true
  { originalValue := original
    singleReadBack := rv
    singlePass := if rv = TEST_VALUE then true else false
    steps := s.2.2
    sweepPass := s.2.1
    finalMem := updateMem s.1 0 original
    exitCode := if s.2.1 then 0 else 1 }

/-- Environment of one Fixed-Address Mapper run: success of each setup
syscall, whether `/tmp/fixed_addr_mem` already exists before the run, the
initial contents of the mapped words, and the interference for each
write/read-back pair. -/
structure FixedEnv where
  devOpenOk : Bool
  devMmapOk : Bool
  simOpenOk : Bool
  simFtruncOk : Bool
  simMmapOk : Bool
  simFilePreexists : Bool
  mem0 : Nat → Nat
  intfSingle : (Nat → Nat) → (Nat → Nat)
  intfSweep : Nat → (Nat → Nat) → (Nat → Nat)

/-- Observable outcome of one Fixed-Address Mapper run. -/
structure FixedRun where
  exitCode : Nat
  reachedMapped : Bool
  usedSim : Bool
  fileDeleted : Bool
  devClosedOnFallback : Bool
  result : Option MappedResult

/-- File-based fallback path of `shm_rw_fixed_addr.c` lines 63-99 followed
by the test and cleanup: `open` failure exits 1 without touching the file;
`ftruncate` failure closes, unlinks and exits 1; `mmap` failure closes,
unlinks (the file exists, having just been created) and exits 1; otherwise
the verification sequence runs and cleanup unlinks the existing file. -/
def fixedFallback (e : FixedEnv) (devClosed : Bool) : FixedRun :=
  if e.simOpenOk then
    if e.simFtruncOk then
      if e.simMmapOk then
        let r := runMapped e.mem0 e.intfSingle e.intfSweep
        { exitCode := r.exitCode, reachedMapped := true, usedSim := true
          fileDeleted := true, devClosedOnFallback := devClosed, result := some r }
      else
        { exitCode := 1, reachedMapped := false, usedSim := true
          fileDeleted := true, devClosedOnFallback := devClosed, result := none }
    else
      { exitCode := 1, reachedMapped := false, usedSim := true
        fileDeleted := true, devClosedOnFallback := devClosed, result := none }
  else
    { exitCode := 1, reachedMapped := false, usedSim := true
      fileDeleted := false, devClosedOnFallback := devClosed, result := none }

/-- The Fixed-Address Mapper `main` of `shm_rw_fixed_addr.c`: try to open
`/dev/mem` (failure falls through to the file-based path); on success try
the privileged mapping (failure closes the device handle and falls through);
on a privileged mapping run the verification sequence and at cleanup unlink
`/tmp/fixed_addr_mem` only if it exists (`access` check, lines 165-167). -/
def runFixedAddr (e : FixedEnv) : FixedRun :=
  if e.devOpenOk then
    if e.devMmapOk then
      let r := runMapped e.mem0 e.intfSingle e.intfSweep
      { exitCode := r.exitCode, reachedMapped := true, usedSim := false
        fileDeleted := e.simFilePreexists, devClosedOnFallback := false
        result := some r }
    else
      fixedFallback e true
  else
    fixedFallback e false

/-- Aggregate flag of the multi-location sweep, `false` when the run never
reached the Mapped state. -/
def sweepPassed (r : FixedRun) : Bool :=
  match r.result with
  | none => false
  | some m => m.sweepPass

/-- Outcome of the single-value check, `false` when the run never reached
the Mapped state. -/
def singlePassed (r : FixedRun) : Bool :=
  match r.result with
  | none => false
  | some m => m.singlePass

/-- Region Mapper environment where every syscall succeeds and nothing
disturbs the region. -/
def envPass : RegionEnv :=
  { openOk := true, ftruncOk := true, mmapOk := true, corrupt := id
    munmapOk := true, closeOk := true, unlinkOk := true }

/-- Region Mapper environment where word 5 of the backing store is zeroed
between the write sweep and the verification sweep. -/
def envCorrupt : RegionEnv :=
  { openOk := true, ftruncOk := true, mmapOk := true
    corrupt := fun m => updateMem m 5 0
    munmapOk := true, closeOk := true, unlinkOk := true }

/-- Region Mapper environment whose `mmap` fails. -/
def envRegionMmapFail : RegionEnv :=
  { openOk := true, ftruncOk := true, mmapOk := false, corrupt := id
    munmapOk := true, closeOk := true, unlinkOk := true }

/-- Fixed-Address environment: fallback path, all syscalls succeed, but the
target word is zeroed between the `TEST_VALUE` write and its read-back, and
the sweep is undisturbed. -/
def envSingleCorrupt : FixedEnv :=
  { devOpenOk := false, devMmapOk := false, simOpenOk := true
    simFtruncOk := true, simMmapOk := true, simFilePreexists := false
    mem0 := fun _ => 0, intfSingle := fun m => updateMem m 0 0
    intfSweep := fun _ m => m }

/-- Fixed-Address environment: privileged mapping succeeds while a stale
`/tmp/fixed_addr_mem` is present from an earlier run. -/
def envPreexist : FixedEnv :=
  { devOpenOk := true, devMmapOk := true, simOpenOk := true
    simFtruncOk := true, simMmapOk := true, simFilePreexists := true
    mem0 := fun _ => 0, intfSingle := fun m => m, intfSweep := fun _ m => m }

/-- Fixed-Address environment: `/dev/mem` cannot be opened. -/
def envNoDev : FixedEnv :=
  { devOpenOk := false, devMmapOk := true, simOpenOk := true
    simFtruncOk := true, simMmapOk := true, simFilePreexists := false
    mem0 := fun _ => 0, intfSingle := fun m => m, intfSweep := fun _ m => m }

/-- Fixed-Address environment: `/dev/mem` opens but its mapping fails. -/
def envDevMmapFail : FixedEnv :=
  { devOpenOk := true, devMmapOk := false, simOpenOk := true
    simFtruncOk := true, simMmapOk := true, simFilePreexists := false
    mem0 := fun _ => 0, intfSingle := fun m => m, intfSweep := fun _ m => m }

/-- Fixed-Address environment: no `/dev/mem`, and the simulation file cannot
be created. -/
def envSimFatal : FixedEnv :=
  { devOpenOk := false, devMmapOk := true, simOpenOk := false
    simFtruncOk := true, simMmapOk := true, simFilePreexists := false
    mem0 := fun _ => 0, intfSingle := fun m => m, intfSweep := fun _ m => m }

/-- Fixed-Address environment: privileged path succeeds, word 0 initially
holds 7, no interference. -/
def envPriv : FixedEnv :=
  { devOpenOk := true, devMmapOk := true, simOpenOk := true
    simFtruncOk := true, simMmapOk := true, simFilePreexists := false
    mem0 := fun _ => 7, intfSingle := fun m => m, intfSweep := fun _ m => m }

/-- Fixed-Address environment: fallback path, everything succeeds, no stale
file, no interference. -/
def envSimOk : FixedEnv :=
  { devOpenOk := false, devMmapOk := true, simOpenOk := true
    simFtruncOk := true, simMmapOk := true, simFilePreexists := false
    mem0 := fun _ => 0, intfSingle := fun m => m, intfSweep := fun _ m => m }

/-- A word below `NUM_WORDS` holds its pattern value after the write sweep. -/
theorem writtenMem_eq (k : Nat) (h : k < NUM_WORDS) : writtenMem k = pattern k := by
  simp [writtenMem, h]

/-- On the tested index range the tag's low 32 bits are clear, so the
bitwise-or pattern coincides with addition. -/
theorem pattern_add_small : ∀ i : Fin 128, pattern i.val = TAG + i.val := by decide

/-- Soundness of the verification loop: a reported mismatch lies in the
scanned window, records the expected and actual values of its index, is a
genuine mismatch, and every earlier scanned word matched. -/
theorem verifyLoop_some (mem : Nat → Nat) :
    ∀ fuel i m, verifyLoop mem i fuel = some m →
      i ≤ m.index ∧ m.index < i + fuel ∧ m.expected = pattern m.index ∧
      m.actual = mem m.index ∧ mem m.index ≠ pattern m.index ∧
      ∀ j, i ≤ j → j < m.index → mem j = pattern j := by
  intro fuel
  induction fuel with
  | zero =>
    intro i m h
    simp [verifyLoop] at h
  | succ n ih =>
    intro i m h
    simp only [verifyLoop] at h
    by_cases hc : mem i = pattern i
    · rw [if_pos hc] at h
      obtain ⟨h1, h2, h3, h4, h5, h6⟩ := ih (i + 1) m h
      refine ⟨by omega, by omega, h3, h4, h5, ?_⟩
      intro j hj1 hj2
      rcases Nat.lt_or_ge j (i + 1) with hl | hg
      · have hji : j = i := by omega
        rw [hji]
        exact hc
      · exact h6 j hg hj2
    · rw [if_neg hc] at h
      injection h with h
      subst h
      refine ⟨Nat.le_refl i, ?_, rfl, rfl, hc, ?_⟩
      · show i < i + (n + 1)
        omega
      · intro j hj1 hj2
        have hji : j < i := hj2
        exact absurd (Nat.lt_of_le_of_lt hj1 hji) (Nat.lt_irrefl i)

/-- Completeness of the verification loop: a mismatch inside the scanned
window is always detected. -/
theorem verifyLoop_isSome (mem : Nat → Nat) :
    ∀ fuel i, (∃ k, i ≤ k ∧ k < i + fuel ∧ mem k ≠ pattern k) →
      Option.isSome (verifyLoop mem i fuel) = true := by
  intro fuel
  induction fuel with
  | zero =>
    intro i h
    obtain ⟨k, h1, h2, h3⟩ := h
    exfalso
    omega
  | succ n ih =>
    intro i h
    obtain ⟨k, h1, h2, h3⟩ := h
    simp only [verifyLoop]
    by_cases hc : mem i = pattern i
    · rw [if_pos hc]
      apply ih (i + 1)
      refine ⟨k, ?_, by omega, h3⟩
      rcases Nat.eq_or_lt_of_le h1 with he | hl
      · exact absurd (he ▸ hc) h3
      · omega
    · rw [if_neg hc]
      rfl

/-- A fully matching undisturbed region verifies clean. -/
theorem verifyLoop_written : verifyLoop writtenMem 0 NUM_WORDS = none := rfl

/-- The exit code of the mapped-phase verification sequence is computed from
the sweep flag alone. -/
theorem runMapped_exit (m0 : Nat → Nat) (iS : (Nat → Nat) → (Nat → Nat))
    (iW : Nat → (Nat → Nat) → (Nat → Nat)) :
    (runMapped m0 iS iW).exitCode =
      if (runMapped m0 iS iW).sweepPass then 0 else 1 := rfl

/-- C2: the Region Mapper's region holds 128 words; the value written at
index `i` is `0xDEADBEEF00000000 | i`; verification succeeds exactly when
every word equals that value; the expected value at index 5 is
`0xDEADBEEF00000005`; and an undisturbed run prints the PASS line citing
1024 bytes and exits 0. -/
theorem region_pattern_roundtrip :
    NUM_WORDS = 128 ∧
    (∀ i, i < NUM_WORDS → writtenMem i = 0xDEADBEEF00000000 ||| i) ∧
    pattern 5 = 0xDEADBEEF00000005 ∧
    (∀ mem : Nat → Nat, verifyLoop mem 0 NUM_WORDS = none ↔
      ∀ i, i < NUM_WORDS → mem i = 0xDEADBEEF00000000 ||| i) ∧
    (∀ e : RegionEnv, e.openOk = true → e.ftruncOk = true → e.mmapOk = true →
      e.corrupt = id →
      (runRegionMapper e).resultLine =
          some "[shm_rw_syscall] PASS: all 1024 bytes match" ∧
      (runRegionMapper e).exitCode = 0) := by
  refine ⟨rfl, ?_, by decide, ?_, ?_⟩
  · intro i h
    unfold writtenMem
    rw [if_pos h]
    rfl
  · intro mem
    constructor
    · intro hnone i hi
      by_contra hne
      have hs := verifyLoop_isSome mem NUM_WORDS 0 ⟨i, Nat.zero_le i, by omega, hne⟩
      rw [hnone] at hs
      simp at hs
    · intro hall
      cases hmm : verifyLoop mem 0 NUM_WORDS with
      | none => rfl
      | some m =>
        have hp := verifyLoop_some mem NUM_WORDS 0 m hmm
        exact absurd (hall m.index (by omega)) hp.2.2.2.2.1
  · intro e h1 h2 h3 h4
    constructor
    · simp [runRegionMapper, h1, h2, h3, h4, verifyLoop_written, passMsg]
    · simp [runRegionMapper, h1, h2, h3, h4, verifyLoop_written]

/-- C2 witness: index 5 of the written region holds `0xDEADBEEF00000005`,
and the all-success undisturbed run prints the PASS line and exits 0. -/
theorem region_pattern_roundtrip_witness :
    writtenMem 5 = 0xDEADBEEF00000005 ∧
    (runRegionMapper envPass).resultLine =
        some "[shm_rw_syscall] PASS: all 1024 bytes match" ∧
    (runRegionMapper envPass).exitCode = 0 :=
  ⟨region_pattern_roundtrip.2.1 5 (by decide),
   region_pattern_roundtrip.2.2.2.2 envPass rfl rfl rfl rfl⟩

/-- C3: the verification sweep scans indices in ascending order and stops at
the first mismatch, recording its index together with the expected and
actual values; and whenever some word of the region is corrupted between the
write sweep and the verification sweep, the run reports the FAIL line, exits
with code 1, and the recorded index is a corrupted one preceded only by
uncorrupted words. -/
theorem region_verify_first_mismatch :
    (∀ (mem : Nat → Nat) (m : Mismatch), verifyLoop mem 0 NUM_WORDS = some m →
      m.index < NUM_WORDS ∧ m.expected = pattern m.index ∧
      m.actual = mem m.index ∧ mem m.index ≠ pattern m.index ∧
      ∀ j, j < m.index → mem j = pattern j) ∧
    (∀ e : RegionEnv, e.openOk = true → e.ftruncOk = true → e.mmapOk = true →
      (∃ k, k < NUM_WORDS ∧ e.corrupt writtenMem k ≠ writtenMem k) →
      (runRegionMapper e).exitCode = 1 ∧
      (runRegionMapper e).resultLine = some failMsg ∧
      ∃ m, (runRegionMapper e).mismatch = some m ∧ m.index < NUM_WORDS ∧
        e.corrupt writtenMem m.index ≠ writtenMem m.index ∧
        ∀ j, j < m.index → e.corrupt writtenMem j = writtenMem j) := by
  constructor
  · intro mem m h
    obtain ⟨h1, h2, h3, h4, h5, h6⟩ := verifyLoop_some mem NUM_WORDS 0 m h
    exact ⟨by omega, h3, h4, h5, fun j hj => h6 j (Nat.zero_le j) hj⟩
  · intro e h1 h2 h3 hcor
    obtain ⟨k, hk, hkne⟩ := hcor
    have hkp : e.corrupt writtenMem k ≠ pattern k := by
      rw [← writtenMem_eq k hk]
      exact hkne
    have hs := verifyLoop_isSome (e.corrupt writtenMem) NUM_WORDS 0
      ⟨k, Nat.zero_le k, by omega, hkp⟩
    cases hmm : verifyLoop (e.corrupt writtenMem) 0 NUM_WORDS with
    | none =>
      rw [hmm] at hs
      simp at hs
    | some m =>
      obtain ⟨hm1, hm2, hm3, hm4, hm5, hm6⟩ :=
        verifyLoop_some (e.corrupt writtenMem) NUM_WORDS 0 m hmm
      have hmlt : m.index < NUM_WORDS := by omega
      refine ⟨?_, ?_, m, ?_, hmlt, ?_, ?_⟩
      · simp [runRegionMapper, h1, h2, h3, hmm]
      · simp [runRegionMapper, h1, h2, h3, hmm]
      · simp [runRegionMapper, h1, h2, h3, hmm]
      · rw [writtenMem_eq m.index hmlt]
        exact hm5
      · intro j hj
        rw [writtenMem_eq j (by omega)]
        exact hm6 j (Nat.zero_le j) hj

/-- C3 witness: zeroing word 5 between write and verify makes the run exit 1
with the FAIL line, and the verification loop on that corrupted store
reports index 5 with the expected and actual values. -/
theorem region_verify_first_mismatch_witness :
    ((updateMem writtenMem 5 0) 5 ≠ pattern 5 ∧
      (Mismatch.mk 5 (pattern 5) 0).index < NUM_WORDS) ∧
    (runRegionMapper envCorrupt).exitCode = 1 ∧
    (runRegionMapper envCorrupt).resultLine = some failMsg := by
  have h1 := region_verify_first_mismatch.1 (updateMem writtenMem 5 0)
    (Mismatch.mk 5 (pattern 5) 0) (by decide)
  have h2 := region_verify_first_mismatch.2 envCorrupt rfl rfl rfl
    ⟨5, by decide, by decide⟩
  exact ⟨⟨h1.2.2.2.1, h1.1⟩, h2.1, h2.2.1⟩

/-- C6: the test-pattern function is injective on the tested index ranges:
distinct indices below 128 (Region Mapper) and below 4 (sweep) always get
distinct expected values. -/
theorem pattern_injective_on_range :
    (∀ i j : Fin 128, i ≠ j → pattern i.val ≠ pattern j.val) ∧
    (∀ i j : Fin 4, i ≠ j → pattern i.val ≠ pattern j.val) := by
  constructor
  · intro i j hne heq
    rw [pattern_add_small i, pattern_add_small j] at heq
    exact hne (Fin.ext (Nat.add_left_cancel heq))
  · intro i j hne heq
    have hi4 := i.isLt
    have hj4 := j.isLt
    have hi : pattern i.val = TAG + i.val := pattern_add_small ⟨i.val, by omega⟩
    have hj : pattern j.val = TAG + j.val := pattern_add_small ⟨j.val, by omega⟩
    rw [hi, hj] at heq
    have hv : i.val = j.val := Nat.add_left_cancel heq
    exact hne (Fin.ext hv)

/-- C6 witness: indices 0 and 1 are distinct on both ranges and get distinct
pattern values. -/
theorem pattern_injective_on_range_witness :
    (pattern (0 : Fin 128).val ≠ pattern (1 : Fin 128).val) ∧
    (pattern (0 : Fin 4).val ≠ pattern (1 : Fin 4).val) :=
  ⟨pattern_injective_on_range.1 0 1 (by decide),
   pattern_injective_on_range.2 0 1 (by decide)⟩

/-- C7: on every Region Mapper run in which the backing file was created
(that is, `open` succeeded), the run closes the descriptor and deletes the
backing file, and if the region was mapped it is also unmapped. -/
theorem region_cleanup_total : ∀ e : RegionEnv, e.openOk = true →
    (runRegionMapper e).fileCreated = true ∧
    (runRegionMapper e).fileDeleted = true ∧
    (runRegionMapper e).fdClosed = true ∧
    ((runRegionMapper e).mapped = true → (runRegionMapper e).unmapped = true) := by
  intro e h
  cases hf : e.ftruncOk <;> cases hm : e.mmapOk <;>
    simp [runRegionMapper, h, hf, hm]

/-- C7 witness: the all-success run creates, closes and deletes the backing
file and unmaps the region. -/
theorem region_cleanup_total_witness :
    (runRegionMapper envPass).fileCreated = true ∧
    (runRegionMapper envPass).fileDeleted = true ∧
    (runRegionMapper envPass).fdClosed = true ∧
    (runRegionMapper envPass).unmapped = true := by
  have h := region_cleanup_total envPass rfl
  exact ⟨h.1, h.2.1, h.2.2.1, h.2.2.2 rfl⟩

/-- C10: the Region Mapper run is unchanged by the (ignored) results of
`munmap`, `close` and `unlink`, and once the mapping is established the exit
code is exactly 0 when every word verified and 1 otherwise. -/
theorem region_exit_ignores_cleanup :
    ∀ (o f m : Bool) (c : (Nat → Nat) → (Nat → Nat)) (m1 c1 u1 m2 c2 u2 : Bool),
      runRegionMapper ⟨o, f, m, c, m1, c1, u1⟩ =
        runRegionMapper ⟨o, f, m, c, m2, c2, u2⟩ ∧
      (o = true → f = true → m = true →
        (runRegionMapper ⟨o, f, m, c, m1, c1, u1⟩).exitCode =
          if (verifyLoop (c writtenMem) 0 NUM_WORDS).isNone then 0 else 1) := by
  intro o f m c m1 c1 u1 m2 c2 u2
  constructor
  · cases o <;> cases f <;> cases m <;> rfl
  · intro h1 h2 h3
    subst h1
    subst h2
    subst h3
    rfl

/-- C10 witness: on the all-success undisturbed run the cleanup results are
irrelevant and the exit code is the verification flag, which evaluates to 0. -/
theorem region_exit_ignores_cleanup_witness :
    runRegionMapper ⟨true, true, true, id, true, true, true⟩ =
      runRegionMapper ⟨true, true, true, id, false, false, false⟩ ∧
    (runRegionMapper ⟨true, true, true, id, true, true, true⟩).exitCode = 0 := by
  have h := region_exit_ignores_cleanup true true true id true true true false false false
  exact ⟨h.1, (h.2 rfl rfl rfl).trans (by decide)⟩

/-- C1 counterexample: in a run where the single-value check fails (word 0
is clobbered between the `TEST_VALUE` write and its read-back) while the
multi-location sweep passes, the Fixed-Address Mapper still exits 0 — so
exit code 0 does not require the single-value check to pass. -/
theorem fixed_exit_ignores_single_check :
    (runFixedAddr envSingleCorrupt).exitCode = 0 ∧
    singlePassed (runFixedAddr envSingleCorrupt) = false ∧
    sweepPassed (runFixedAddr envSingleCorrupt) = true :=
  ⟨rfl, rfl, rfl⟩

/-- C1 (amended): the Fixed-Address Mapper's exit code is 0 exactly when the
multi-location sweep passed and 1 otherwise — in particular 1 on every fatal
setup error — and the single-value check's outcome is not consulted. -/
theorem fixed_exit_eq_sweep : ∀ e : FixedEnv,
    (runFixedAddr e).exitCode =
      if sweepPassed (runFixedAddr e) then 0 else 1 := by
  intro e
  cases hdo : e.devOpenOk <;> cases hdm : e.devMmapOk <;>
    cases hso : e.simOpenOk <;> cases hsf : e.simFtruncOk <;>
      cases hsm : e.simMmapOk <;>
        simp [runFixedAddr, fixedFallback, sweepPassed, hdo, hdm, hso, hsf,
          hsm, runMapped_exit]

/-- C4: device-open failure falls through to the simulation path; privileged
mapping failure closes the device handle and falls through to the simulation
path; any failure inside the simulation path (open, `ftruncate` or `mmap`)
is fatal with exit code 1; and in the Region Mapper a mapping-establishment
failure is fatal with exit code 1. -/
theorem fixed_fallback_fatal : ∀ (e : FixedEnv) (re : RegionEnv),
    (e.devOpenOk = false → runFixedAddr e = fixedFallback e false) ∧
    (e.devOpenOk = true → e.devMmapOk = false →
      runFixedAddr e = fixedFallback e true ∧
      (runFixedAddr e).devClosedOnFallback = true) ∧
    ((e.devOpenOk = false ∨ e.devMmapOk = false) →
      (e.simOpenOk = false ∨ e.simFtruncOk = false ∨ e.simMmapOk = false) →
      (runFixedAddr e).exitCode = 1 ∧ (runFixedAddr e).reachedMapped = false) ∧
    (re.openOk = true → re.ftruncOk = true → re.mmapOk = false →
      (runRegionMapper re).exitCode = 1 ∧ (runRegionMapper re).mapped = false) := by
  intro e re
  refine ⟨?_, ?_, ?_, ?_⟩
  · intro h
    simp [runFixedAddr, h]
  · intro h1 h2
    constructor
    · simp [runFixedAddr, h1, h2]
    · cases hso : e.simOpenOk <;> cases hsf : e.simFtruncOk <;>
        cases hsm : e.simMmapOk <;>
          simp [runFixedAddr, fixedFallback, h1, h2, hso, hsf, hsm]
  · intro hdev hsim
    cases hdo : e.devOpenOk <;> cases hdm : e.devMmapOk <;>
      cases hso : e.simOpenOk <;> cases hsf : e.simFtruncOk <;>
        cases hsm : e.simMmapOk <;>
          simp_all [runFixedAddr, fixedFallback]
  · intro h1 h2 h3
    simp [runRegionMapper, h1, h2, h3]

/-- C4 witness: with no `/dev/mem` the run is the simulation path; when the
privileged mapping fails the device handle is closed before falling back;
a failing simulation `open` exits 1; a failing Region Mapper `mmap` exits 1. -/
theorem fixed_fallback_fatal_witness :
    runFixedAddr envNoDev = fixedFallback envNoDev false ∧
    (runFixedAddr envDevMmapFail).devClosedOnFallback = true ∧
    (runFixedAddr envSimFatal).exitCode = 1 ∧
    (runRegionMapper envRegionMmapFail).exitCode = 1 :=
  ⟨(fixed_fallback_fatal envNoDev envRegionMmapFail).1 rfl,
   ((fixed_fallback_fatal envDevMmapFail envRegionMmapFail).2.1 rfl rfl).2,
   ((fixed_fallback_fatal envSimFatal envRegionMmapFail).2.2.1
      (Or.inl rfl) (Or.inl rfl)).1,
   ((fixed_fallback_fatal envNoDev envRegionMmapFail).2.2.2 rfl rfl rfl).1⟩

/-- C5: the mapped-phase sequence records the value of word 0 before its
first write, and after the verification sequence — whatever the outcome of
the single-value check and of the sweep, i.e. for arbitrary interference —
writes that recorded value back, so word 0 of the final store equals its
initial value; and every completed Fixed-Address run restores likewise. -/
theorem fixed_restore_original : ∀ (e : FixedEnv) (r : MappedResult),
    (runMapped e.mem0 e.intfSingle e.intfSweep).originalValue = e.mem0 0 ∧
    (runMapped e.mem0 e.intfSingle e.intfSweep).finalMem 0 = e.mem0 0 ∧
    ((runFixedAddr e).result = some r →
      r.originalValue = e.mem0 0 ∧ r.finalMem 0 = e.mem0 0) := by
  intro e r
  refine ⟨rfl, rfl, ?_⟩
  intro h
  cases hdo : e.devOpenOk <;> cases hdm : e.devMmapOk <;>
    cases hso : e.simOpenOk <;> cases hsf : e.simFtruncOk <;>
      cases hsm : e.simMmapOk <;>
        simp only [runFixedAddr, fixedFallback, hdo, hdm, hso, hsf, hsm,
          if_true, if_false, Bool.false_eq_true, ite_false, ite_true,
          Option.some.injEq, reduceCtorEq] at h
  all_goals first
    | exact h.elim
    | (subst h; exact ⟨rfl, rfl⟩)

/-- C5 witness: on the successful privileged run with initial value 7 at the
target word, the recorded original and the final content of word 0 are 7. -/
theorem fixed_restore_original_witness :
    (runFixedAddr envPriv).result =
      some (runMapped envPriv.mem0 envPriv.intfSingle envPriv.intfSweep) ∧
    (runMapped envPriv.mem0 envPriv.intfSingle envPriv.intfSweep).originalValue = 7 ∧
    (runMapped envPriv.mem0 envPriv.intfSingle envPriv.intfSweep).finalMem 0 = 7 := by
  have h := (fixed_restore_original envPriv
    (runMapped envPriv.mem0 envPriv.intfSingle envPriv.intfSweep)).2.2 rfl
  exact ⟨rfl, h.1, h.2⟩

/-- C8 counterexample: in a run that uses the privileged device mapping
while a stale `/tmp/fixed_addr_mem` exists, cleanup deletes that file even
though the simulation path was never used — refuting deletion "iff the
simulation path was used in this run". -/
theorem fixed_cleanup_deletes_preexisting :
    (runFixedAddr envPreexist).usedSim = false ∧
    (runFixedAddr envPreexist).reachedMapped = true ∧
    (runFixedAddr envPreexist).fileDeleted = true :=
  ⟨rfl, rfl, rfl⟩

/-- C8 (amended): on every completed run, cleanup deletes the simulation
file exactly when it exists at cleanup time — that is, when the simulation
path was used (the file was then created) or the file already existed before
the run, even under the privileged device mapping. -/
theorem fixed_cleanup_deletes_iff_exists : ∀ e : FixedEnv,
    (runFixedAddr e).reachedMapped = true →
    (runFixedAddr e).fileDeleted =
      ((runFixedAddr e).usedSim || e.simFilePreexists) := by
  intro e h
  cases hdo : e.devOpenOk <;> cases hdm : e.devMmapOk <;>
    cases hso : e.simOpenOk <;> cases hsf : e.simFtruncOk <;>
      cases hsm : e.simMmapOk <;>
        simp_all [runFixedAddr, fixedFallback]

/-- C8 (amended) witness: the successful simulation-path run with no stale
file deletes the file it created. -/
theorem fixed_cleanup_deletes_iff_exists_witness :
    (runFixedAddr envSimOk).fileDeleted =
      ((runFixedAddr envSimOk).usedSim || envSimOk.simFilePreexists) :=
  fixed_cleanup_deletes_iff_exists envSimOk rfl

/-- C9: with undisturbed memory the restore step rewrites only word 0 to the
recorded original value, while the sweep-overwritten words 1, 2 and 3 keep
the sweep values `0xDEADBEEF00000001`, `0xDEADBEEF00000002` and
`0xDEADBEEF00000003` in the final store, whatever the initial contents. -/
theorem fixed_restore_only_target : ∀ m0 : Nat → Nat,
    (runMapped m0 (fun m => m) (fun _ m => m)).finalMem 0 = m0 0 ∧
    (runMapped m0 (fun m => m) (fun _ m => m)).finalMem 1 = 0xDEADBEEF00000001 ∧
    (runMapped m0 (fun m => m) (fun _ m => m)).finalMem 2 = 0xDEADBEEF00000002 ∧
    (runMapped m0 (fun m => m) (fun _ m => m)).finalMem 3 = 0xDEADBEEF00000003 := by
  intro m0
  exact ⟨rfl, rfl, rfl, rfl⟩

end ShmRw
